import Mathlib

set_option maxRecDepth 100000
set_option maxHeartbeats 4000000

/-!
Verification of the PyGameCrafter backend (`src/backend/app.py`) against its
natural-language specification.

The development shallowly embeds the backend's pure logic in Lean:

* Python `str.strip()` is modelled by `pyStrip` (ASCII whitespace);
* Python `str.lower()` by `lowerStr` (ASCII case folding);
* the `re.search(rf"<{tag}>([\s\S]*?)</{tag}>", text, re.IGNORECASE)` call in
  `extract_between_tags` by `searchTags` (leftmost match of the opening tag
  for which a closing tag exists later, with the lazy group taking the
  earliest closing occurrence, letters compared case-insensitively);
* the `/run-code` stderr classification, environment derivation, temporary
  file discipline and the `/improve-code` control flow by executable
  functions over explicit request/outcome data;
* Python-level runtime errors (AttributeError on `None.strip()`,
  TypeError from `ast.parse` on a non-string) by an `Except PyExc` result:
  `.error` means the exception propagates out of the handler.

Machine-specific effects (the actual Groq HTTP call, the subprocess) are
parameters of the handler functions; the handlers' own branching is taken
verbatim from the source.
-/

/-- ASCII whitespace as stripped by Python `str.strip()` (space, tab,
newline, carriage return, vertical tab, form feed). -/
def pyWs (c : Char) : Bool :=
  c == ' ' || c == '\t' || c == '\n' || c == '\r' || c == '\x0b' || c == '\x0c'

/-- Strip leading and trailing `pyWs` characters from a character list. -/
def pyStripList (l : List Char) : List Char :=
  ((List.dropWhile pyWs l).reverse.dropWhile pyWs).reverse

/-- Model of Python `str.strip()` (no arguments): remove leading and
trailing whitespace. -/
def pyStrip (s : String) : String :=
  ⟨pyStripList s.data⟩

/-- Model of Python `str.lower()` (ASCII case folding). -/
def lowerStr (s : String) : String :=
  ⟨s.data.map Char.toLower⟩

/-- Case-sensitive test: does `pat` begin the list `l`? -/
def leadsList : List Char → List Char → Bool
  | [], _ => true
  | _ :: _, [] => false
  | p :: ps, c :: cs => p == c && leadsList ps cs

/-- Case-sensitive test: does `pat` occur as a contiguous sublist of `l`? -/
def occursIn (pat : List Char) : List Char → Bool
  | [] => pat.isEmpty
  | c :: cs => leadsList pat (c :: cs) || occursIn pat cs

/-- Model of the Python substring test `pat in s` (case-sensitive). -/
def containsSub (s pat : String) : Bool :=
  occursIn pat.data s.data

/-- Case-insensitive character comparison, modelling `re.IGNORECASE`
letter matching on ASCII. -/
def chEq (a b : Char) : Bool :=
  a.toLower == b.toLower

/-- Case-insensitive test: does `pat` begin the list `l`? -/
def chLeads : List Char → List Char → Bool
  | [], _ => true
  | _ :: _, [] => false
  | p :: ps, c :: cs => chEq p c && chLeads ps cs

/-- Case-insensitive test: does `pat` occur as a contiguous sublist of `l`? -/
def chOccurs (pat : List Char) : List Char → Bool
  | [] => pat.isEmpty
  | c :: cs => chLeads pat (c :: cs) || chOccurs pat cs

/-- Case-insensitive substring containment on strings. -/
def ciContains (s pat : String) : Bool :=
  chOccurs pat.data s.data

/-- Split `l` around the first case-insensitive occurrence of `pat`:
returns the part before the occurrence and the part after it, or `none`
when `pat` does not occur in `l`. -/
def splitFirstCI (pat : List Char) : List Char → Option (List Char × List Char)
  | [] => if pat.isEmpty then some ([], []) else none
  | c :: cs =>
    if chLeads pat (c :: cs) then some ([], List.drop pat.length (c :: cs))
    else
      match splitFirstCI pat cs with
      | some (a, b) => some (c :: a, b)
      | none => none

/-- Semantics of `re.search(rf"<tag>([\s\S]*?)</tag>", text, re.IGNORECASE)`:
scan left to right for the first position where the opening tag matches
case-insensitively and a closing tag occurs afterwards; the lazy group is
the text up to the earliest such closing occurrence.  Returns the group. -/
def searchTags (openT closeT : List Char) : List Char → Option (List Char)
  | [] => none
  | c :: cs =>
    if chLeads openT (c :: cs) then
      match splitFirstCI closeT (List.drop openT.length (c :: cs)) with
      | some (inner, _) => some inner
      | none => searchTags openT closeT cs
    else searchTags openT closeT cs

/-- Embedding of `extract_between_tags(text, tag)` (app.py lines 31-40):
regex-extract the first `<TAG>...</TAG>` group, case-insensitively and
across newlines, and return the inner text stripped; `None` if absent. -/
def extract_between_tags (text tag : String) : Option String :=
  match searchTags ("<" ++ tag ++ ">").data ("</" ++ tag ++ ">").data text.data with
  | none => none
  | some inner => some (pyStrip ⟨inner⟩)

/-- A Python `SyntaxError` value as observed by `validate_syntax`:
`str(e)` and `e.lineno`. -/
structure PySyntaxError where
  msg : String
  lineno : Nat
deriving DecidableEq

/-- Modelled from the spec: Python's `ast.parse` (standard library, not part
of src/), viewed as a total function returning `none` on success and the
`SyntaxError` data on failure.  Only the grammar facts the spec states are
modelled: a blank (empty or whitespace-only) source parses as an empty
module, and `"def f(:"` fails at line 1 (CPython message
`invalid syntax (<unknown>, line 1)`).  All other sources are modelled as
parsing successfully; the claims do not depend on them. -/
def ast_parse (source : String) : Option PySyntaxError :=
  if pyStrip source = "" then none
  else if source = "def f(:" then some ⟨"invalid syntax (<unknown>, line 1)", 1⟩
  else none

/-- Embedding of `validate_syntax(code)` (app.py lines 22-28): parse with
`ast.parse`; on success return `None`, on `SyntaxError e` return the
message `f"Syntax error: {str(e)} at line {e.lineno}"`. -/
def validate_syntax (code : String) : Option String :=
  match ast_parse code with
  | none => none
  | some e => some ("Syntax error: " ++ e.msg ++ " at line " ++ toString e.lineno)

/-- Head of the `ai_prompt` f-string template (app.py lines 106-113),
from `You are PyGameCrafter` through `Behaviors:`, exactly as in the
source. -/
def tmplHead : String :=
  "You are PyGameCrafter, an assistant that focuses on Python games built using Pygame.\n\nYou will receive:\n- The full code of a file (which may be empty if the user hasn\x27t provided any code yet).\n- Optionally, a selected portion that the user wants to modify.\n- A natural language prompt.\n\nBehaviors:\n\n"

/-- Opening text of behavioural branch 1 of the template (modify existing
code), app.py lines 115-118. -/
def modifyBranchMarker : String :=
  "1) WHEN THERE IS EXISTING CODE (non-empty):\n   - Treat the given code as a Python/Pygame game (or close to it).\n   - If a selected portion is non-empty:\n       * Modify ONLY that selected portion"

/-- Template text between the two behavioural branch openings
(app.py lines 118-130). -/
def tmplMid1 : String :=
  ", but you may use the full code for context.\n   - If the selected portion is empty:\n       * You may modify anywhere in the full code.\n   - Apply the user\x27s prompt to improve the game:\n       * Examples: smoother movement, better collision, FPS cap, menus, UI, etc.\n   - Then return the ENTIRE updated code (not just a diff).\n   - In the explanation, concisely describe what you changed and why.\n\n   If the prompt is clearly unrelated to Python/Pygame games (e.g., essays, websites, random chat),\n   but code is provided, you should:\n   - Leave the code mostly unchanged or make only game-relevant improvements.\n   - Explain in the explanation that PyGameCrafter is focused on Python/Pygame games and how you\n     interpreted the prompt in that context.\n\n"

/-- Opening text of behavioural branch 2 of the template (generate from
scratch), app.py lines 132-133. -/
def scratchBranchMarker : String :=
  "2) WHEN THERE IS NO EXISTING CODE (code is empty or only whitespace):\n   - Treat the prompt as a request to CREATE a new Python + Pygame game or demo from scratch."

/-- Template text from the end of branch 2's opening through the output
format rules (app.py lines 133-164). -/
def tmplMid2 : String :=
  "\n   - Generate a single-file Python script using Pygame that:\n       * Opens a window.\n       * Implements a simple game or demo inspired by the prompt\n         (e.g., moving player, bouncing ball, obstacle dodging, etc.).\n       * Is runnable as-is (assuming Pygame is installed).\n   - If the prompt is vague or off-topic, you MUST STILL create a simple, reasonable Pygame demo.\n       * For example: \"a little square you can move with arrow keys, with a basic FPS cap\".\n   - In the explanation, clearly say that:\n       * PyGameCrafter is focused on Python games using Pygame.\n       * You generated a simple Pygame game that best matches the prompt.\n\nIMPORTANT: You NEVER refuse to generate code just because the user did not paste any code.\nIf there is no code, you generate a new Pygame game file guided by the prompt.\n\nOUTPUT FORMAT (VERY IMPORTANT):\nReturn your answer in EXACTLY this structure:\n\n<CODE>\n[PUT THE FULL UPDATED OR NEW PYTHON CODE HERE]\n</CODE>\n<EXPLANATION>\n[PUT A SHORT, CLEAR EXPLANATION OF WHAT YOU DID HERE]\n</EXPLANATION>\n\nRules:\n- Do NOT wrap the output in JSON.\n- Do NOT use Markdown code blocks or backticks.\n- Do NOT add any other sections or tags.\n- Everything between <CODE> and </CODE> must be valid Python code that can be saved as a .py file.\n- Everything between <EXPLANATION> and </EXPLANATION> must be plain text.\n\n"

/-- Label of the `Full Code` section, immediately before the interpolated
`code` (app.py line 165). -/
def fullCodeLabel : String :=
  "Full Code (may be empty):\n"

/-- Fixed head of the `ai_prompt` f-string template (app.py lines 106-165),
from `You are PyGameCrafter` through `Full Code (may be empty):\n`: the
concatenation of the pieces above, exactly the source text. -/
def tmplA : String :=
  tmplHead ++ modifyBranchMarker ++ tmplMid1 ++ scratchBranchMarker ++ tmplMid2 ++ fullCodeLabel

/-- Template piece between the interpolated `code` and `target_code`. -/
def tmplB : String :=
  "\n\nSelected Portion (may be empty):\n"

/-- Template piece between the interpolated `target_code` and `prompt`. -/
def tmplC : String :=
  "\n\nUser Prompt:\n"

/-- Trailing whitespace of the template, before the final `.strip()`. -/
def tmplTail : String :=
  "\n    "

/-- The raw f-string value of `ai_prompt` before `.strip()`: the template
opens with a newline (it follows `f"""` immediately). -/
def rawAiPrompt (code target_code prompt : String) : String :=
  "\n" ++ tmplA ++ code ++ tmplB ++ target_code ++ tmplC ++ prompt ++ tmplTail

/-- The `ai_prompt` string built by `improve_code` from the already
normalized `code`, `target_code` and `prompt` (f-string followed by
`.strip()`, app.py lines 105-173). -/
def buildAiPrompt (code target_code prompt : String) : String :=
  pyStrip (rawAiPrompt code target_code prompt)

/-- The `ai_prompt` as a function of the raw request strings, including the
normalization in app.py lines 93-102: whitespace-only `code` becomes empty,
and `target_code` is `selected_code` when its strip is non-empty, else the
normalized code. -/
def improvePromptOf (full_code selected_code prompt : String) : String :=
  let code := if pyStrip full_code = "" then "" else full_code
  let target_code := if pyStrip selected_code ≠ "" then selected_code else code
  buildAiPrompt code target_code prompt

/-- Fixed part of the sandbox harness before the user code
(app.py lines 296-305). -/
def harnessPre : String :=
  "import pygame\nimport sys\n\n# Initialize Pygame and check if video system initialized successfully\nif pygame.init() == (0, 0):  # Returns (num_successful, num_failed)\n    print(\x27Pygame initialization failed\x27)\n    sys.exit(1)\n\n# Original code wrapped in a persistent loop\n"

/-- Fixed part of the sandbox harness after the user code
(app.py lines 307-315). -/
def harnessPost : String :=
  "\n\nrunning = True\nwhile running:\n    for event in pygame.event.get():\n        if event.type == pygame.QUIT:\n            running = False\n    pygame.display.flip()  # Ensure the display updates\n\npygame.quit()\n"

/-- The `wrapped_code` harness built by `run_code` around the user code. -/
def wrapped_code (code : String) : String :=
  harnessPre ++ code ++ harnessPost

/-- JSON payload of an HTTP response produced by the handlers. -/
inductive JsonOut where
  | jerror (msg : String)
  | joutput (msg : String)
  | jpair (modified_code explanation : String)
deriving DecidableEq

/-- An HTTP response: status code and JSON body. -/
def HttpResp := Nat × JsonOut

instance : DecidableEq HttpResp := instDecidableEqProd

/-- Error body of the first `SandboxInitFailure` branch (app.py lines
333-340), which appends the raw stderr. -/
def initFailHeadlessMsg (stderr : String) : String :=
  "Pygame failed to initialize.\nIf you are running this in a headless environment, make sure to use the \x27dummy\x27 video driver or run with a display.\n\nDetails:\n" ++ stderr

/-- Error body of the second `SandboxInitFailure` branch (app.py lines
342-348), noting that code can still be improved without a display. -/
def initFailNoteMsg : String :=
  "Pygame failed to initialize in this environment.\nPyGameCrafter can still help you improve the code, but you may need a proper display to actually run the game."

/-- Placeholder output used when the subprocess exits 0 with empty stdout
(app.py line 353). -/
def successPlaceholder : String :=
  "Code executed successfully (Pygame window should open until manually closed)."

/-- Classification of a finished subprocess run (app.py lines 329-356):
lower the stderr, scan for the two init-failure signatures, then for the
harness abort message, then branch on the exit code. -/
def classifyRun (exitCode : Int) (stdout stderr : String) : HttpResp :=
  let sl := lowerStr stderr
  if containsSub sl "pygame.error" || containsSub sl "no available video device" then
    (500, .jerror (initFailHeadlessMsg stderr))
  else if containsSub sl "pygame initialization failed" then
    (500, .jerror initFailNoteMsg)
  else if exitCode = 0 then
    (200, .joutput (if stdout = "" then successPlaceholder else stdout))
  else
    (500, .jerror stderr)

/-- Point update of an environment (a finite map modelled as a function). -/
def setEnvVar (e : String → Option String) (k v : String) : String → Option String :=
  fun x => if x = k then some v else e x

/-- Environment handed to the sandbox subprocess (app.py lines 286-291):
copy the ambient environment; if `SDL_VIDEODRIVER` is absent, set it to
`windows` on `os.name == "nt"` else `x11`, then overwrite with `dummy` when
`os.environ.get("DISPLAY")` is falsy (absent or empty) and not on
Windows. -/
def deriveEnv (osName : String) (ambient : String → Option String) : String → Option String :=
  if (ambient "SDL_VIDEODRIVER").isSome then ambient
  else
    let env1 := setEnvVar ambient "SDL_VIDEODRIVER" (if osName = "nt" then "windows" else "x11")
    if ((ambient "DISPLAY").getD "") = "" ∧ osName ≠ "nt" then
      setEnvVar env1 "SDL_VIDEODRIVER" "dummy"
    else env1

/-- A Python value as it can appear in the parsed JSON request body
(restricted to the shapes the claims exercise). -/
inductive PyVal where
  | vstr (s : String)
  | vnone
  | vint (n : Int)
deriving DecidableEq

/-- Python truthiness of a `PyVal`. -/
def pyTruthy : PyVal → Bool
  | .vstr s => s ≠ ""
  | .vnone => false
  | .vint n => n ≠ 0

/-- Python `str()` of a `PyVal`, as interpolated by an f-string. -/
def pyValToStr : PyVal → String
  | .vstr s => s
  | .vnone => "None"
  | .vint n => toString n

/-- Python type name of a `PyVal`, as it appears in error messages. -/
def pyTypeName : PyVal → String
  | .vstr _ => "str"
  | .vnone => "NoneType"
  | .vint _ => "int"

/-- Kind of a propagating Python exception, distinguishing the classes the
handlers catch separately. -/
inductive ExcKind where
  | requestExc
  | attrErr
  | typeErr
  | other
deriving DecidableEq

/-- A Python exception value: its class kind and its `str(e)` text. -/
structure PyExc where
  kind : ExcKind
  text : String
deriving DecidableEq

/-- The `AttributeError` text raised by `v.strip()` when `v` has no such
attribute. -/
def stripAttrErr (v : PyVal) : PyExc :=
  ⟨.attrErr, "\x27" ++ pyTypeName v ++ "\x27 object has no attribute \x27strip\x27"⟩

/-- The `TypeError` raised by `ast.parse`/`compile` on a non-string
argument. -/
def parseTypeErr : PyExc :=
  ⟨.typeErr, "compile() arg 1 must be a string, bytes or AST object"⟩

/-- `data.get(key, default)` on the parsed request body. -/
def dget (body : List (String × PyVal)) (key : String) (dflt : PyVal) : PyVal :=
  match body.find? (fun p => p.1 == key) with
  | some p => p.2
  | none => dflt

/-- `validate_syntax` as invoked on a request-body value: on a string it is
the embedded `validate_syntax`; on any other value `ast.parse` raises a
`TypeError`, which `validate_syntax` does not catch (it catches only
`SyntaxError`), so the exception propagates. -/
def validate_syntax_py : PyVal → Except PyExc (Option String)
  | .vstr s => .ok ( validate_syntax s)
  | _ => .error parseTypeErr

/-- Result of the finished sandbox subprocess: exit code and captured
stdout/stderr (text mode). -/
structure RunRes where
  exitCode : Int
  stdout : String
  stderr : String
deriving DecidableEq

/-- Decidable equality for `Except`, needed for the result records. -/
instance {ε α : Type} [DecidableEq ε] [DecidableEq α] : DecidableEq (Except ε α) := fun a b =>
  match a, b with
  | .ok x, .ok y =>
    if h : x = y then .isTrue (by rw [h]) else .isFalse (by intro hc; cases hc; exact h rfl)
  | .error x, .error y =>
    if h : x = y then .isTrue (by rw [h]) else .isFalse (by intro hc; cases hc; exact h rfl)
  | .ok _, .error _ => .isFalse (by intro hc; cases hc)
  | .error _, .ok _ => .isFalse (by intro hc; cases hc)

/-- Observable outcome of one `/run-code` request: the handler's result
(`.error` means an exception escaped the handler) together with the
resource trace of the sandbox section. -/
structure RunCodeResult where
  result : Except PyExc HttpResp
  harnessBuilt : Bool
  launched : Bool
  fileCreated : Bool
  fileDeleted : Bool
deriving DecidableEq

/-- Embedding of the `run_code` handler (app.py lines 267-366).

Nondeterministic effects are parameters: `osName`/`ambient` feed the
environment derivation, `writeExc` injects an exception raised while
encoding/writing the wrapped code to the already created temporary file
(between `NamedTemporaryFile()` and the binding of `temp_file_path`), and
`runRes` is the outcome of `subprocess.run` (`.error` models the call
itself raising).

The body checks happen before the `try` block, so a `TypeError` from
`validate_syntax` on a non-string `code` propagates.  In the `writeExc`
path the `except` handler at lines 358-360 skips the unlink because
`temp_file_path` is not in `locals()`. -/
def run_code (osName : String) (ambient : String → Option String)
    (body : List (String × PyVal)) (writeExc : Option PyExc)
    (runRes : Except PyExc RunRes) : RunCodeResult :=
  let code := dget body "code" (.vstr "")
  if ¬ pyTruthy code then
    ⟨.ok (400, .jerror "No code provided"), false, false, false, false⟩
  else
    match code with
    | .vstr s =>
      match validate_syntax s with
      | some se =>
        ⟨.ok (400, .jerror ("Your Python code has a syntax issue. Fix this before running the Pygame window:\n" ++ se)), false, false, false, false⟩
      | none =>
        -- try block: derive the environment, create the temporary file,
        -- build and write the harness, run it, unlink, classify.
        let _env := deriveEnv osName ambient
        let _harness := wrapped_code s
        match writeExc with
        | some e =>
          ⟨.ok (500, .jerror ("Execution failed while running your Pygame code.\nDetails: " ++ e.text)), true, false, true, false⟩
        | none =>
          match runRes with
          | .error e =>
            ⟨.ok (500, .jerror ("Execution failed while running your Pygame code.\nDetails: " ++ e.text)), true, true, true, true⟩
          | .ok r =>
            ⟨.ok (classifyRun r.exitCode r.stdout r.stderr), true, true, true, true⟩
    | _ => ⟨.error parseTypeErr, false, false, false, false⟩

/-- Outcome of the Groq API interaction inside `improve_code`'s `try`
block: an exception raised anywhere in the block, a non-2xx HTTP status
(from `raise_for_status`), or a 2xx reply whose first-choice message
content is `content` (possibly `None`). -/
inductive GroqOutcome where
  | raised (e : PyExc)
  | httpStatus (status : Nat) (text : String)
  | reply (content : Option String)
deriving DecidableEq

/-- Default explanation used when the model reply has no usable
`<EXPLANATION>` block (app.py lines 230-234). -/
def defaultExplanation : String :=
  "No explanation provided by the model. PyGameCrafter updated or generated the code based on your prompt."

/-- Protocol error body returned when no non-empty `<CODE>` block is found
(app.py lines 222-228). -/
def protocolErrMsg : String :=
  "PyGameCrafter could not find a <CODE>...</CODE> block in the model response.\nTry a simpler, more focused prompt about your Python/Pygame game."

/-- The `try` block of `improve_code` (app.py lines 185-264) after the
request payload has been built: map the network outcome to a response.
Every exception raised inside the block is caught: `RequestException`
becomes 502, anything else 500. -/
def groqSection (ucontent : GroqOutcome) : HttpResp :=
  match ucontent with
  | .raised e =>
    if e.kind = .requestExc then
      (502, .jerror ("PyGameCrafter had trouble talking to the Groq API.\nDetails: " ++ e.text))
    else
      (500, .jerror ("PyGameCrafter hit an unexpected error while processing this request.\nDetails: " ++ e.text))
  | .httpStatus status text =>
    if status = 401 then
      (401, .jerror "Groq API returned 401 Unauthorized.\nCheck that your GROQ_API_KEY is correct, active, and really a Groq key (not an OpenAI key).")
    else
      (status, .jerror ("Groq API error " ++ toString status ++ ": " ++ text))
  | .reply none => (500, .jerror "Model returned empty content.")
  | .reply (some c) =>
    let content := pyStrip c
    match extract_between_tags content "CODE" with
    | none => (500, .jerror protocolErrMsg)
    | some m =>
      if m = "" then (500, .jerror protocolErrMsg)
      else
        let explanation :=
          match extract_between_tags content "EXPLANATION" with
          | none => defaultExplanation
          | some e => if e = "" then defaultExplanation else e
        match validate_syntax m with
        | none => (200, .jpair m explanation)
        | some se => (200, .jpair m (explanation ++ "\n\n[Server syntax check warning]\n" ++ se))

/-- Model of Python `str.startswith(pre)`. -/
def strStarts (s pre : String) : Bool :=
  leadsList pre.data s.data

/-- Embedding of the `improve_code` handler (app.py lines 45-264).

`apiKey` is the (lazily reloaded) `GROQ_API_KEY`; `net` is the outcome of
the Groq interaction.  The body reading and normalization (lines 85-102)
happens before the `try` block: `code.strip()` on a non-string `code` and
`selected_code.strip()` on a non-string `selected_code` raise
`AttributeError`, which propagates (`.error`). -/
def improve_code (apiKey : Option String) (body : List (String × PyVal))
    (net : GroqOutcome) : Except PyExc HttpResp :=
  match apiKey with
  | none =>
    .ok (500, .jerror "GROQ_API_KEY is not set.\nPyGameCrafter needs a valid Groq API key in your .env file:\nGROQ_API_KEY=your_real_groq_key_here")
  | some k =>
    if k = "" then
      .ok (500, .jerror "GROQ_API_KEY is not set.\nPyGameCrafter needs a valid Groq API key in your .env file:\nGROQ_API_KEY=your_real_groq_key_here")
    else if strStarts k "sk-" then
      .ok (500, .jerror "Your GROQ_API_KEY looks like an OpenAI key (starts with \x27sk-\x27).\nPyGameCrafter uses Groq. Please create a Groq key and set it as GROQ_API_KEY.")
    else
      let code := dget body "code" (.vstr "")
      let prompt := dget body "prompt" .vnone
      let selected_code := dget body "selected_code" (.vstr "")
      if ¬ pyTruthy prompt then .ok (400, .jerror "Prompt is required")
      else
        -- code = code or ""
        let code1 := if pyTruthy code then code else .vstr ""
        match code1 with
        | .vstr cs =>
          match selected_code with
          | .vstr sel =>
            let _aiPrompt := improvePromptOf cs sel (pyValToStr prompt)
            .ok (groqSection net)
          | v => .error (stripAttrErr v)
        | v => .error (stripAttrErr v)

/-- `dropWhile` keeps a list whose kept form is nonempty when something is
appended behind it. -/
theorem dropWhile_append_keep {p : Char → Bool} {a : List Char} (b : List Char)
    (ha : List.dropWhile p a = a) (hne : a ≠ []) :
    List.dropWhile p (a ++ b) = a ++ b := by
  rw [List.dropWhile_append, ha]
  cases a with
  | nil => exact absurd rfl hne
  | cons x xs => simp

/-- A list containing an element not satisfying `p` does not drop to
nothing. -/
theorem dropWhile_ne_nil_of_mem {p : Char → Bool} {l : List Char} {c : Char}
    (hc : c ∈ l) (hp : p c = false) : List.dropWhile p l ≠ [] := by
  induction l with
  | nil => cases hc
  | cons x xs ih =>
    rw [List.dropWhile_cons]
    by_cases hx : p x = true
    · rw [if_pos hx]
      rcases List.mem_cons.mp hc with h | h
      · subst h; rw [hx] at hp; cases hp
      · exact ih h
    · rw [if_neg hx]; simp

/-- `dropWhile` empties a list all of whose elements satisfy `p`. -/
theorem dropWhile_all_nil {p : Char → Bool} {l : List Char}
    (h : ∀ c ∈ l, p c = true) : List.dropWhile p l = [] := by
  induction l with
  | nil => rfl
  | cons x xs ih =>
    rw [List.dropWhile_cons, if_pos (h x (List.mem_cons_self x xs))]
    exact ih fun c hc => h c (List.mem_cons_of_mem x hc)

/-- A case-sensitive prefix stays a prefix after appending. -/
theorem leadsList_append {pat x : List Char} (b : List Char)
    (h : leadsList pat x = true) : leadsList pat (x ++ b) = true := by
  induction pat generalizing x with
  | nil => rfl
  | cons p ps ih =>
    cases x with
    | nil => cases h
    | cons c cs =>
      rw [List.cons_append]
      rw [leadsList, Bool.and_eq_true] at h ⊢
      exact ⟨h.1, ih h.2⟩

/-- A case-sensitive occurrence survives appending on the right. -/
theorem occursIn_append_left {pat a : List Char} (b : List Char)
    (h : occursIn pat a = true) : occursIn pat (a ++ b) = true := by
  induction a with
  | nil =>
    rw [occursIn] at h
    cases pat with
    | nil => cases b <;> simp [occursIn, leadsList]
    | cons p ps => cases h
  | cons c cs ih =>
    rw [occursIn, Bool.or_eq_true] at h
    rw [List.cons_append, occursIn, Bool.or_eq_true]
    rcases h with h | h
    · exact Or.inl (by rw [← List.cons_append]; exact leadsList_append b h)
    · exact Or.inr (ih h)

/-- Stripping a front-stable nonempty `a` followed by a `b` holding at
least one non-whitespace character keeps `a` intact at the front. -/
theorem pyStripList_keep_front {a b : List Char}
    (ha : List.dropWhile pyWs a = a) (hne : a ≠ [])
    (hb : ∃ c ∈ b, pyWs c = false) :
    ∃ b', pyStripList (a ++ b) = a ++ b' := by
  obtain ⟨c, hcb, hcw⟩ := hb
  rw [pyStripList, dropWhile_append_keep b ha hne, List.reverse_append]
  rw [List.dropWhile_append]
  have hbne : List.dropWhile pyWs b.reverse ≠ [] :=
    dropWhile_ne_nil_of_mem (List.mem_reverse.mpr hcb) hcw
  rw [if_neg (by simp only [List.isEmpty_eq_true]; exact hbne)]
  refine ⟨(List.dropWhile pyWs b.reverse).reverse, ?_⟩
  rw [List.reverse_append, List.reverse_reverse]

/-- The `Full Code` section of the prompt as it reads when the embedded
code is the empty string. -/
def emptyFullCodeMarker : String :=
  "Full Code (may be empty):\n\n\nSelected Portion (may be empty):\n"


/-- `pyStripList` absorbs a leading whitespace character. -/
theorem pyStripList_cons_ws {c : Char} (l : List Char) (hc : pyWs c = true) :
    pyStripList (c :: l) = pyStripList l := by
  rw [pyStripList, pyStripList, List.dropWhile_cons, if_pos hc]

/-- Stripping a list that starts with a non-whitespace character and whose
appended tail holds a non-whitespace character keeps the front intact. -/
theorem pyStripList_keep_cons_front (c : Char) (u b : List Char)
    (hcw : pyWs c = false) (hb : ∃ d ∈ b, pyWs d = false) :
    ∃ b', pyStripList ((c :: u) ++ b) = (c :: u) ++ b' := by
  refine pyStripList_keep_front ?_ (by simp) hb
  rw [List.dropWhile_cons, if_neg (by simp [hcw])]

/-- A pattern placed literally inside a context is found by `occursIn`. -/
theorem leadsList_self (pat r : List Char) : leadsList pat (pat ++ r) = true := by
  induction pat with
  | nil => rfl
  | cons q qs ih => simp only [List.cons_append, leadsList, beq_self_eq_true,
      Bool.true_and]; exact ih

/-- `occursIn` finds a literally embedded pattern. -/
theorem occursIn_at (pat x y : List Char) : occursIn pat (x ++ (pat ++ y)) = true := by
  induction x with
  | nil =>
    rw [List.nil_append]
    cases pat with
    | nil => cases y <;> simp [occursIn, leadsList]
    | cons q qs =>
      rw [List.cons_append, occursIn, Bool.or_eq_true]
      exact Or.inl (by rw [← List.cons_append]; exact leadsList_self (q :: qs) y)
  | cons c cs ih =>
    rw [List.cons_append, occursIn, Bool.or_eq_true]
    exact Or.inr ih

/-- Unfolding helper: the character data of a stripped string. -/
theorem pyStrip_data (s : String) : (pyStrip s).data = pyStripList s.data := rfl

/-- With blank `full_code` the built prompt starts (after the strip) with
the full fixed template head followed by the empty code slot. -/
theorem buildAiPrompt_blank (t p : String) :
    ∃ b', (buildAiPrompt "" t p).data = (tmplA.data ++ tmplB.data) ++ b' := by
  have harg : (rawAiPrompt "" t p).data
      = '\n' :: ((tmplA.data ++ tmplB.data) ++ (t.data ++ (tmplC.data ++ (p.data ++ tmplTail.data)))) := by
    rw [rawAiPrompt]
    have e1 : ("\n" : String).data = '\n' :: ([] : List Char) := rfl
    have e2 : ("" : String).data = ([] : List Char) := rfl
    simp only [String.data_append, e1, e2, List.nil_append, List.cons_append,
      List.append_assoc]
  rw [buildAiPrompt, pyStrip_data, harg, pyStripList_cons_ws _ (by decide)]
  obtain ⟨u, hu⟩ : ∃ u, tmplHead.data = 'Y' :: u := ⟨tmplHead.data.tail, rfl⟩
  have hab : tmplA.data ++ tmplB.data
      = 'Y' :: (u ++ (modifyBranchMarker.data ++ (tmplMid1.data ++ (scratchBranchMarker.data ++ (tmplMid2.data ++ (fullCodeLabel.data ++ tmplB.data)))))) := by
    simp only [tmplA, String.data_append, hu, List.cons_append, List.append_assoc]
  rw [hab]
  refine pyStripList_keep_cons_front 'Y' _ _ (by decide) ?_
  refine ⟨'U', List.mem_append.mpr (Or.inr (List.mem_append.mpr (Or.inl ?_))), by decide⟩
  decide

/-- For any request with blank full code, the built `ai_prompt` contains
the scratch-branch text, the modify-branch text, and the empty full-code
section: they all sit inside the fixed template head, which survives the
final strip. -/
theorem improvePrompt_blank_markers (full_code selected_code prompt : String)
    (hfc : pyStrip full_code = "") :
    containsSub (improvePromptOf full_code selected_code prompt) scratchBranchMarker = true ∧
    containsSub (improvePromptOf full_code selected_code prompt) modifyBranchMarker = true ∧
    containsSub (improvePromptOf full_code selected_code prompt) emptyFullCodeMarker = true := by
  have hn : improvePromptOf full_code selected_code prompt
      = buildAiPrompt "" (if pyStrip selected_code ≠ "" then selected_code else "") prompt := by
    simp [improvePromptOf, hfc]
  obtain ⟨b', hb'⟩ := buildAiPrompt_blank (if pyStrip selected_code ≠ "" then selected_code else "") prompt
  have hsplitS : (tmplA.data ++ tmplB.data) ++ b'
      = (tmplHead.data ++ (modifyBranchMarker.data ++ tmplMid1.data)) ++ (scratchBranchMarker.data ++ (tmplMid2.data ++ (fullCodeLabel.data ++ (tmplB.data ++ b')))) := by
    simp only [tmplA, String.data_append, List.append_assoc]
  have hsplitM : (tmplA.data ++ tmplB.data) ++ b'
      = tmplHead.data ++ (modifyBranchMarker.data ++ (tmplMid1.data ++ (scratchBranchMarker.data ++ (tmplMid2.data ++ (fullCodeLabel.data ++ (tmplB.data ++ b')))))) := by
    simp only [tmplA, String.data_append, List.append_assoc]
  have hm : emptyFullCodeMarker.data = fullCodeLabel.data ++ tmplB.data := rfl
  have hsplitF : (tmplA.data ++ tmplB.data) ++ b'
      = (tmplHead.data ++ (modifyBranchMarker.data ++ (tmplMid1.data ++ (scratchBranchMarker.data ++ tmplMid2.data)))) ++ (emptyFullCodeMarker.data ++ b') := by
    rw [hm]
    simp only [tmplA, String.data_append, List.append_assoc]
  rw [hn]
  refine ⟨?_, ?_, ?_⟩
  · rw [containsSub, hb', hsplitS]
    exact occursIn_at _ _ _
  · rw [containsSub, hb', hsplitM]
    exact occursIn_at _ _ _
  · rw [containsSub, hb', hsplitF]
    exact occursIn_at _ _ _

/-- C1 (counterexample).  The claim says that for blank `full_code` and
non-empty `prompt` the built `ai_prompt` never embeds the
modify-existing-code branch text; but the template embeds both behavioural
branches unconditionally, so at the concrete input
`full_code = ""`, `selected_code = ""`, `prompt = "add a bouncing ball"`
the built instruction text does contain the modify branch. -/
theorem c1_blank_code_prompt_contains_modify_branch :
    pyStrip "" = "" ∧ ("add a bouncing ball" ≠ "") ∧
    containsSub (improvePromptOf "" "" "add a bouncing ball") modifyBranchMarker = true :=
  ⟨rfl, by decide, (improvePrompt_blank_markers "" "" "add a bouncing ball" rfl).2.1⟩

/-- C1 (amended).  For every generation request in which `full_code` is
blank (empty or whitespace-only) and `prompt` is non-empty, the `ai_prompt`
built by `improve_code` embeds the generate-from-scratch branch text and an
empty `Full Code` section; the modify-existing-code branch text is also
always embedded, since the template describes both behaviours verbatim and
leaves the branch selection to the model reading the (empty) embedded
code. -/
theorem c1_blank_code_prompt_embeds_scratch_branch
    (full_code selected_code prompt : String)
    (hblank : pyStrip full_code = "") (_hp : prompt ≠ "") :
    containsSub (improvePromptOf full_code selected_code prompt) scratchBranchMarker = true ∧
    containsSub (improvePromptOf full_code selected_code prompt) emptyFullCodeMarker = true ∧
    containsSub (improvePromptOf full_code selected_code prompt) modifyBranchMarker = true :=
  ⟨(improvePrompt_blank_markers full_code selected_code prompt hblank).1,
   (improvePrompt_blank_markers full_code selected_code prompt hblank).2.2,
   (improvePrompt_blank_markers full_code selected_code prompt hblank).2.1⟩

/-- C1 (witness): the amended theorem applied at a concrete input. -/
theorem c1_blank_code_prompt_embeds_scratch_branch_witness :
    pyStrip " \n " = "" ∧ ("draw a square" ≠ "") ∧
    containsSub (improvePromptOf " \n " "" "draw a square") scratchBranchMarker = true :=
  ⟨rfl, by decide,
   (c1_blank_code_prompt_embeds_scratch_branch " \n " "" "draw a square" rfl (by decide)).1⟩

/-- C6.  `validate_syntax` is total — for every input it returns a value
(`none` or an error message) and never raises — and on the two sample
inputs it behaves as specified: the empty string parses as an empty
program, and `"def f(:"` yields a message carrying line number 1.
The grammar facts come from the spec-modelled `ast_parse`. -/
theorem c6_validate_syntax_total_and_examples :
    (∀ code : String, validate_syntax code = none ∨ ∃ m, validate_syntax code = some m) ∧
    validate_syntax "" = none ∧
    validate_syntax "def f(:" = some "Syntax error: invalid syntax (<unknown>, line 1) at line 1" ∧
    containsSub "Syntax error: invalid syntax (<unknown>, line 1) at line 1" " at line 1" = true := by
  refine ⟨?_, rfl, rfl, by decide⟩
  intro code
  match h : validate_syntax code with
  | none => exact Or.inl rfl
  | some m => exact Or.inr ⟨m, rfl⟩

/-- A concrete ambient environment in which `DISPLAY` is present but set
to the empty string, and no other variable is set. -/
def emptyDisplayEnv : String → Option String :=
  fun k => if k = "DISPLAY" then some "" else none

/-- C9 (counterexample).  On a non-Windows platform with `DISPLAY` present
but empty, the code picks the `dummy` driver although the claim (reading
"DISPLAY set" as "present in the environment") prescribes `x11`:
`os.environ.get("DISPLAY")` is the empty string, which is falsy. -/
theorem c9_empty_display_yields_dummy :
    emptyDisplayEnv "DISPLAY" = some "" ∧
    emptyDisplayEnv "SDL_VIDEODRIVER" = none ∧
    deriveEnv "posix" emptyDisplayEnv "SDL_VIDEODRIVER" = some "dummy" ∧
    deriveEnv "posix" emptyDisplayEnv "SDL_VIDEODRIVER" ≠ some "x11" := by
  refine ⟨rfl, rfl, by decide, by decide⟩

/-- C9 (amended).  The derived environment agrees with the ambient one on
every variable other than `SDL_VIDEODRIVER` and leaves everything untouched
when `SDL_VIDEODRIVER` is already present; otherwise `SDL_VIDEODRIVER`
becomes `windows` on Windows, `dummy` on non-Windows when `DISPLAY` is
absent or empty, and `x11` on non-Windows when `DISPLAY` is non-empty. -/
theorem c9_env_derivation (osName : String) (ambient : String → Option String) :
    ((ambient "SDL_VIDEODRIVER").isSome = true → deriveEnv osName ambient = ambient) ∧
    (∀ k, k ≠ "SDL_VIDEODRIVER" → deriveEnv osName ambient k = ambient k) ∧
    (ambient "SDL_VIDEODRIVER" = none → osName = "nt" →
      deriveEnv osName ambient "SDL_VIDEODRIVER" = some "windows") ∧
    (ambient "SDL_VIDEODRIVER" = none → osName ≠ "nt" → (ambient "DISPLAY").getD "" = "" →
      deriveEnv osName ambient "SDL_VIDEODRIVER" = some "dummy") ∧
    (ambient "SDL_VIDEODRIVER" = none → osName ≠ "nt" → (ambient "DISPLAY").getD "" ≠ "" →
      deriveEnv osName ambient "SDL_VIDEODRIVER" = some "x11") := by
  refine ⟨?_, ?_, ?_, ?_, ?_⟩
  · intro h
    rw [deriveEnv, if_pos h]
  · intro k hk
    rw [deriveEnv]
    by_cases h : (ambient "SDL_VIDEODRIVER").isSome = true
    · rw [if_pos h]
    · rw [if_neg h]
      by_cases h2 : ((ambient "DISPLAY").getD "") = "" ∧ osName ≠ "nt"
      · rw [if_pos h2]; simp [setEnvVar, hk]
      · rw [if_neg h2]; simp [setEnvVar, hk]
  · intro h hnt
    rw [deriveEnv, if_neg (by simp [h]), if_neg (fun hc => hc.2 hnt)]
    simp [setEnvVar, hnt]
  · intro h hnt hd
    rw [deriveEnv, if_neg (by simp [h]), if_pos ⟨hd, hnt⟩]
    simp [setEnvVar]
  · intro h hnt hd
    rw [deriveEnv, if_neg (by simp [h]), if_neg (fun hc => hd hc.1)]
    simp [setEnvVar, if_neg hnt]

/-- C9 (witness): the amended theorem applied at a concrete input (a fully
empty ambient environment on a non-Windows platform). -/
theorem c9_env_derivation_witness :
    (((fun _ => none) : String → Option String) "SDL_VIDEODRIVER" = none) ∧
    ("posix" ≠ "nt") ∧
    ((((fun _ => none) : String → Option String) "DISPLAY").getD "" = "") ∧
    deriveEnv "posix" (fun _ => none) "SDL_VIDEODRIVER" = some "dummy" :=
  ⟨rfl, by decide, rfl,
   (c9_env_derivation "posix" (fun _ => none)).2.2.2.1 rfl (by decide) rfl⟩

/-- Case-sensitive prefix matching against a lowercased list coincides with
case-insensitive matching when the pattern is already lowercase. -/
theorem leadsList_map_toLower {pat : List Char} (hpat : ∀ c ∈ pat, c.toLower = c) :
    ∀ l : List Char, leadsList pat (l.map Char.toLower) = chLeads pat l := by
  induction pat with
  | nil => intro l; rfl
  | cons p ps ih =>
    intro l
    cases l with
    | nil => rfl
    | cons c cs =>
      rw [List.map_cons, leadsList, chLeads, chEq,
        hpat p (List.mem_cons_self p ps),
        ih (fun d hd => hpat d (List.mem_cons_of_mem p hd)) cs]

/-- Scanning the lowercased text for an already-lowercase pattern is the
case-insensitive scan of the original text. -/
theorem occursIn_map_toLower {pat : List Char} (hpat : ∀ c ∈ pat, c.toLower = c) :
    ∀ l : List Char, occursIn pat (l.map Char.toLower) = chOccurs pat l := by
  intro l
  induction l with
  | nil => rfl
  | cons c cs ih =>
    rw [List.map_cons, occursIn, chOccurs, ← List.map_cons,
      leadsList_map_toLower hpat, ih]

/-- The Python idiom `needle in stderr.lower()` for a lowercase needle is
case-insensitive containment in the original stderr. -/
theorem lower_contains_ci (s pat : String) (hpat : ∀ c ∈ pat.data, c.toLower = c) :
    containsSub (lowerStr s) pat = ciContains s pat :=
  occursIn_map_toLower hpat s.data

/-- C7 (counterexample).  The claim's `otherwise exit_code == 0 implies
Success carrying stdout` is violated when stderr carries the harness abort
signature: at exit code 0, stdout `"all good"`, stderr
`"Pygame initialization failed"`, the classifier returns the 500
init-failure response, not a Success. -/
theorem c7_exit_zero_with_abort_message_not_success :
    classifyRun 0 "all good" "Pygame initialization failed" = (500, .jerror initFailNoteMsg) ∧
    classifyRun 0 "all good" "Pygame initialization failed" ≠ (200, .joutput "all good") := by
  refine ⟨by decide, by decide⟩

/-- C7 (amended).  Full classifier postcondition: the two init-failure
signatures dominate any exit code; otherwise the harness abort signature
(`pygame initialization failed` in stderr, case-insensitively) also yields
the `SandboxInitFailure` response; only otherwise does exit code 0 give
Success (with the placeholder for empty stdout) and a non-zero exit code
the raw-stderr RuntimeFailure with status 500. -/
theorem c7_classifier_characterization (exitCode : Int) (stdout stderr : String) :
    classifyRun exitCode stdout stderr =
      if ciContains stderr "pygame.error" || ciContains stderr "no available video device" then
        (500, .jerror (initFailHeadlessMsg stderr))
      else if ciContains stderr "pygame initialization failed" then
        (500, .jerror initFailNoteMsg)
      else if exitCode = 0 then
        (200, .joutput (if stdout = "" then successPlaceholder else stdout))
      else (500, .jerror stderr) := by
  simp only [classifyRun]
  rw [lower_contains_ci _ "pygame.error" (by decide),
    lower_contains_ci _ "no available video device" (by decide),
    lower_contains_ci _ "pygame initialization failed" (by decide)]

/-- Modelled from the spec: the observable subprocess result of the
harness's startup-abort branch.  When `pygame.init()` reports zero
successes the generated harness executes
`print('Pygame initialization failed')` — Python `print` writes to
standard output — followed by `sys.exit(1)`, which terminates the process
with exit code 1 and produces no traceback, so stderr is empty. -/
def harnessAbortRun : RunRes :=
  ⟨1, "Pygame initialization failed\n", ""⟩

/-- C2.  The harness does embed its distinct startup-abort `print`, but
the message goes to stdout while the classifier scans stderr: the run in
which graphics initialization reports zero successes is classified as the
bare RuntimeFailure with an empty stderr, not as the SandboxInitFailure
response carrying the code-can-still-be-evaluated note, and not as
Success. -/
theorem c2_startup_abort_classified_as_runtime_failure :
    (∀ code : String,
      containsSub (wrapped_code code) "print(\x27Pygame initialization failed\x27)" = true) ∧
    classifyRun harnessAbortRun.exitCode harnessAbortRun.stdout harnessAbortRun.stderr
      = (500, .jerror "") ∧
    classifyRun harnessAbortRun.exitCode harnessAbortRun.stdout harnessAbortRun.stderr
      ≠ (500, .jerror initFailNoteMsg) ∧
    (∀ out : String,
      classifyRun harnessAbortRun.exitCode harnessAbortRun.stdout harnessAbortRun.stderr
        ≠ (200, .joutput out)) := by
  refine ⟨?_, by decide, by decide, ?_⟩
  · intro code
    rw [containsSub, wrapped_code]
    simp only [String.data_append, List.append_assoc]
    have h : occursIn "print(\x27Pygame initialization failed\x27)".data harnessPre.data = true := by decide
    exact occursIn_append_left _ (occursIn_append_left _ h)
  · intro out h
    rw [show classifyRun harnessAbortRun.exitCode harnessAbortRun.stdout harnessAbortRun.stderr
        = (500, .jerror "") from by decide] at h
    cases h

/-- C3 (counterexample).  A whitespace-only `code` field is truthy, passes
syntax validation (a blank source parses as an empty module), and reaches
the sandbox: the handler builds the harness, launches the subprocess and
returns the subprocess's classification, not the 400 rejection the claim
prescribes for blank code. -/
theorem c3_blank_code_reaches_sandbox :
    (run_code "posix" (fun _ => none) [("code", .vstr " ")] none (.ok ⟨0, "", ""⟩)).harnessBuilt = true ∧
    (run_code "posix" (fun _ => none) [("code", .vstr " ")] none (.ok ⟨0, "", ""⟩)).launched = true ∧
    (run_code "posix" (fun _ => none) [("code", .vstr " ")] none (.ok ⟨0, "", ""⟩)).result
      = .ok (200, .joutput successPlaceholder) ∧
    (∀ msg : String,
      (run_code "posix" (fun _ => none) [("code", .vstr " ")] none (.ok ⟨0, "", ""⟩)).result
        ≠ .ok (400, .jerror msg)) := by
  refine ⟨rfl, rfl, by decide, ?_⟩
  intro msg h
  rw [show (run_code "posix" (fun _ => none) [("code", .vstr " ")] none (.ok ⟨0, "", ""⟩)).result
      = .ok (200, .joutput successPlaceholder) from by decide] at h
  cases h

/-- C3 (amended).  A `/run-code` request whose `code` field is absent,
empty, or otherwise falsy is rejected with 400 before the harness is built
or the sandbox launched; whitespace-only code, however, is truthy and is
not rejected by this check. -/
theorem c3_empty_code_rejected_before_sandbox
    (osName : String) (ambient : String → Option String)
    (body : List (String × PyVal)) (writeExc : Option PyExc)
    (runRes : Except PyExc RunRes)
    (h : pyTruthy (dget body "code" (.vstr "")) = false) :
    run_code osName ambient body writeExc runRes
      = ⟨.ok (400, .jerror "No code provided"), false, false, false, false⟩ := by
  simp [run_code, h]

/-- C3 (witness): the amended theorem applied to a request with no `code`
field at all. -/
theorem c3_empty_code_rejected_before_sandbox_witness :
    pyTruthy (dget ([] : List (String × PyVal)) "code" (.vstr "")) = false ∧
    run_code "posix" (fun _ => none) [] none (.error ⟨.other, "never run"⟩)
      = ⟨.ok (400, .jerror "No code provided"), false, false, false, false⟩ :=
  ⟨rfl, c3_empty_code_rejected_before_sandbox "posix" (fun _ => none) [] none
    (.error ⟨.other, "never run"⟩) rfl⟩

/-- C4 (counterexample).  Exceptions raised while reading and normalizing
the request body are not caught: a null `selected_code` makes
`improve_code` raise `AttributeError` on `selected_code.strip()` before
its `try` block (so no 500 response is produced), and a non-string `code`
makes `run_code` raise `TypeError` inside `validate_syntax` before its
`try` block. -/
theorem c4_body_normalization_exceptions_escape :
    improve_code (some "gsk_abc")
        [("code", .vstr "x = 1"), ("prompt", .vstr "make a game"), ("selected_code", .vnone)]
        (.reply (some "irrelevant"))
      = .error (stripAttrErr .vnone) ∧
    (∀ r : HttpResp,
      improve_code (some "gsk_abc")
          [("code", .vstr "x = 1"), ("prompt", .vstr "make a game"), ("selected_code", .vnone)]
          (.reply (some "irrelevant"))
        ≠ .ok r) ∧
    (run_code "posix" (fun _ => none) [("code", .vint 5)] none (.ok ⟨0, "", ""⟩)).result
      = .error parseTypeErr := by
  refine ⟨by decide, ?_, by decide⟩
  intro r h
  rw [show improve_code (some "gsk_abc")
      [("code", .vstr "x = 1"), ("prompt", .vstr "make a game"), ("selected_code", .vnone)]
      (.reply (some "irrelevant")) = .error (stripAttrErr .vnone) from by decide] at h
  cases h

/-- C4 (amended).  Every exception raised inside a handler's `try` block
is caught and converted to a JSON error response — 502 for a transport
(`RequestException`) failure in `improve_code`, 500 with the exception's
text otherwise, and 500 with the exception's text for any exception in
`run_code`'s sandbox block — while exceptions raised during body reading
and normalization (a null `selected_code`, a non-string `code`) occur
before the `try` blocks and propagate out of the handler. -/
theorem c4_try_block_exceptions_converted :
    (∀ e : PyExc, e.kind ≠ .requestExc →
      improve_code (some "gsk_abc")
          [("code", .vstr "x = 1"), ("prompt", .vstr "p"), ("selected_code", .vstr "")]
          (.raised e)
        = .ok (500, .jerror ("PyGameCrafter hit an unexpected error while processing this request.\nDetails: " ++ e.text))) ∧
    (∀ e : PyExc, e.kind = .requestExc →
      improve_code (some "gsk_abc")
          [("code", .vstr "x = 1"), ("prompt", .vstr "p"), ("selected_code", .vstr "")]
          (.raised e)
        = .ok (502, .jerror ("PyGameCrafter had trouble talking to the Groq API.\nDetails: " ++ e.text))) ∧
    (∀ e : PyExc,
      (run_code "posix" (fun _ => none) [("code", .vstr "print(1)")] none (.error e)).result
        = .ok (500, .jerror ("Execution failed while running your Pygame code.\nDetails: " ++ e.text))) ∧
    (∀ (e : PyExc) (rr : Except PyExc RunRes),
      (run_code "posix" (fun _ => none) [("code", .vstr "print(1)")] (some e) rr).result
        = .ok (500, .jerror ("Execution failed while running your Pygame code.\nDetails: " ++ e.text))) ∧
    (∀ net : GroqOutcome,
      improve_code (some "gsk_abc")
          [("code", .vstr "x = 1"), ("prompt", .vstr "p"), ("selected_code", .vnone)] net
        = .error (stripAttrErr .vnone)) ∧
    (∀ (we : Option PyExc) (rr : Except PyExc RunRes),
      (run_code "posix" (fun _ => none) [("code", .vint 5)] we rr).result
        = .error parseTypeErr) := by
  refine ⟨?_, ?_, fun e => rfl, fun e rr => rfl, fun net => rfl, fun we rr => rfl⟩
  · intro e he
    obtain ⟨kind, text⟩ := e
    cases kind with
    | requestExc => exact absurd rfl he
    | attrErr => rfl
    | typeErr => rfl
    | other => rfl
  · intro e he
    obtain ⟨kind, text⟩ := e
    cases kind with
    | requestExc => rfl
    | attrErr => cases he
    | typeErr => cases he
    | other => cases he

/-- C4 (witness): the amended theorem applied at a concrete non-transport
exception. -/
theorem c4_try_block_exceptions_converted_witness :
    (PyExc.mk .other "boom").kind ≠ .requestExc ∧
    improve_code (some "gsk_abc")
        [("code", .vstr "x = 1"), ("prompt", .vstr "p"), ("selected_code", .vstr "")]
        (.raised ⟨.other, "boom"⟩)
      = .ok (500, .jerror ("PyGameCrafter hit an unexpected error while processing this request.\nDetails: " ++ "boom")) :=
  ⟨by decide, c4_try_block_exceptions_converted.1 ⟨.other, "boom"⟩ (by decide)⟩

/-- C8.  The temporary file is deleted on the normal and subprocess-error
exit paths, but on the exit path where writing the harness to the already
created temporary file raises (e.g. the disk fills up), `temp_file_path`
is not yet bound, the `except` handler's `locals()` guard skips the
unlink, and the file is left behind — against the claim. -/
theorem c8_write_failure_leaks_temp_file :
    (run_code "posix" (fun _ => none) [("code", .vstr "print(1)")]
        (some ⟨.other, "No space left on device"⟩) (.ok ⟨0, "", ""⟩)).fileCreated = true ∧
    (run_code "posix" (fun _ => none) [("code", .vstr "print(1)")]
        (some ⟨.other, "No space left on device"⟩) (.ok ⟨0, "", ""⟩)).fileDeleted = false ∧
    (run_code "posix" (fun _ => none) [("code", .vstr "print(1)")]
        (some ⟨.other, "No space left on device"⟩) (.ok ⟨0, "", ""⟩)).result
      = .ok (500, .jerror ("Execution failed while running your Pygame code.\nDetails: No space left on device")) ∧
    (∀ rr : Except PyExc RunRes,
      (run_code "posix" (fun _ => none) [("code", .vstr "print(1)")] none rr).fileCreated = true ∧
      (run_code "posix" (fun _ => none) [("code", .vstr "print(1)")] none rr).fileDeleted = true) := by
  refine ⟨rfl, rfl, by decide, ?_⟩
  intro rr
  cases rr with
  | error e => exact ⟨rfl, rfl⟩
  | ok r => exact ⟨rfl, rfl⟩

/-- A pattern case-insensitively matches itself with anything appended. -/
theorem chLeads_self (pat r : List Char) : chLeads pat (pat ++ r) = true := by
  induction pat with
  | nil => rfl
  | cons p ps ih => simp [chLeads, chEq, ih]

/-- A case-insensitive prefix of `x ++ y` no longer than `x` is a prefix
of `x`. -/
theorem chLeads_of_append_long {pat x y : List Char}
    (h : chLeads pat (x ++ y) = true) (hlen : pat.length ≤ x.length) :
    chLeads pat x = true := by
  induction pat generalizing x with
  | nil => rfl
  | cons p ps ih =>
    cases x with
    | nil => simp at hlen
    | cons c cs =>
      rw [List.cons_append, chLeads, Bool.and_eq_true] at h
      rw [chLeads, Bool.and_eq_true]
      exact ⟨h.1, ih h.2 (Nat.succ_le_succ_iff.mp hlen)⟩

/-- A case-insensitive prefix of `x ++ y` longer than `x` continues past
`x` into `y`. -/
theorem chLeads_drop_of_append {pat x y : List Char}
    (h : chLeads pat (x ++ y) = true) (hlen : x.length ≤ pat.length) :
    chLeads (pat.drop x.length) y = true := by
  induction x generalizing pat with
  | nil => rw [List.length_nil, List.drop_zero]; exact h
  | cons c cs ih =>
    cases pat with
    | nil => simp at hlen
    | cons p ps =>
      rw [List.cons_append, chLeads, Bool.and_eq_true] at h
      rw [List.length_cons, List.drop_succ_cons]
      exact ih h.2 (Nat.succ_le_succ_iff.mp hlen)

/-- A case-insensitive prefix match at the very front is an occurrence. -/
theorem chOccurs_of_chLeads {pat l : List Char} (hne : l ≠ [])
    (h : chLeads pat l = true) : chOccurs pat l = true := by
  cases l with
  | nil => exact absurd rfl hne
  | cons c cs => simp [chOccurs, h]

/-- If a pattern does not occur in a list, it does not occur in any
suffix. -/
theorem chOccurs_drop {pat l : List Char} (h : chOccurs pat l = false) :
    ∀ k, chOccurs pat (List.drop k l) = false := by
  induction l with
  | nil => intro k; rw [List.drop_nil]; exact h
  | cons c cs ih =>
    intro k
    cases k with
    | zero => rw [List.drop_zero]; exact h
    | succ k' =>
      rw [List.drop_succ_cons]
      rw [chOccurs, Bool.or_eq_false_iff] at h
      exact ih h.2 k'

/-- No case-insensitive match of `pat` can start strictly inside `a` and
continue into `hd :: t` when `pat` does not occur inside `a` and no
character of `pat` other than its head matches `hd`. -/
theorem chLeads_no_span {pat a : List Char} {hd : Char} (t : List Char)
    (hane : a ≠ []) (hocc : chOccurs pat a = false)
    (hpat : ∀ j, (hj : j < pat.length) → 1 ≤ j → chEq (pat.get ⟨j, hj⟩) hd = false) :
    chLeads pat (a ++ (hd :: t)) = false := by
  rcases Nat.lt_or_ge a.length pat.length with hlt | hge
  · by_contra hcon
    rw [Bool.not_eq_false] at hcon
    have h2 := chLeads_drop_of_append hcon (Nat.le_of_lt hlt)
    rw [List.drop_eq_getElem_cons hlt, chLeads, Bool.and_eq_true] at h2
    have h3 := hpat a.length hlt (List.length_pos.mpr hane)
    rw [List.get_eq_getElem] at h3
    rw [h3] at h2
    cases h2.1
  · by_contra hcon
    rw [Bool.not_eq_false] at hcon
    have h2 := chOccurs_of_chLeads hane (chLeads_of_append_long hcon hge)
    rw [hocc] at h2
    cases h2

/-- `splitFirstCI` finds a literally embedded pattern when no
case-insensitive match starts earlier. -/
theorem splitFirstCI_boundary {pat : List Char} (a b : List Char) (hpne : pat ≠ [])
    (hnolead : ∀ k, k < a.length → chLeads pat (List.drop k a ++ (pat ++ b)) = false) :
    splitFirstCI pat (a ++ (pat ++ b)) = some (a, b) := by
  induction a with
  | nil =>
    rw [List.nil_append]
    cases pat with
    | nil => exact absurd rfl hpne
    | cons p ps =>
      rw [List.cons_append, splitFirstCI]
      have hl : chLeads (p :: ps) (p :: (ps ++ b)) = true := by
        rw [← List.cons_append]; exact chLeads_self _ _
      rw [if_pos hl, ← List.cons_append, List.drop_left]
  | cons c a' ih =>
    have h0 := hnolead 0 (Nat.succ_pos _)
    rw [List.drop_zero, List.cons_append] at h0
    rw [List.cons_append, splitFirstCI, if_neg (by simp [h0])]
    rw [ih (fun k hk => by
      have hs := hnolead (k + 1) (Nat.succ_lt_succ hk)
      rw [List.drop_succ_cons] at hs
      exact hs)]

/-- `searchTags` skips over a region in which the opening tag never
case-insensitively matches. -/
theorem searchTags_skip {openT : List Char} (closeT a b : List Char)
    (h : ∀ k, k < a.length → chLeads openT (List.drop k a ++ b) = false) :
    searchTags openT closeT (a ++ b) = searchTags openT closeT b := by
  induction a with
  | nil => rw [List.nil_append]
  | cons c a' ih =>
    have h0 := h 0 (Nat.succ_pos _)
    rw [List.drop_zero, List.cons_append] at h0
    rw [List.cons_append, searchTags, if_neg (by simp [h0])]
    exact ih (fun k hk => by
      have hs := h (k + 1) (Nat.succ_lt_succ hk)
      rw [List.drop_succ_cons] at hs
      exact hs)

/-- `searchTags` on text of the shape `open ++ inner ++ close ++ rest`
returns `inner` when the closing tag does not case-insensitively match
anywhere strictly inside `inner`. -/
theorem searchTags_exact {openT closeT : List Char} (inner rest : List Char)
    (hop : openT ≠ []) (hcl : closeT ≠ [])
    (hinner : ∀ k, k < inner.length →
      chLeads closeT (List.drop k inner ++ (closeT ++ rest)) = false) :
    searchTags openT closeT (openT ++ (inner ++ (closeT ++ rest))) = some inner := by
  cases hhd : openT with
  | nil => exact absurd hhd hop
  | cons o os =>
    rw [List.cons_append, searchTags]
    have hl : chLeads (o :: os) (o :: (os ++ (inner ++ (closeT ++ rest)))) = true := by
      rw [← List.cons_append]; exact chLeads_self _ _
    rw [if_pos hl, ← List.cons_append, ← hhd, List.drop_left,
      splitFirstCI_boundary inner rest hcl hinner]

/-- A case-insensitive match of `pat` against `lit ++ r` fails whenever
`pat` and `lit` disagree (case-insensitively) at some common index. -/
theorem chLeads_mismatch_at {pat lit : List Char} (r : List Char) (j : Nat)
    (hj1 : j < pat.length) (hj2 : j < lit.length)
    (hne : chEq (pat.getD j ' ') (lit.getD j ' ') = false) :
    chLeads pat (lit ++ r) = false := by
  induction j generalizing pat lit with
  | zero =>
    cases pat with
    | nil => simp at hj1
    | cons p ps =>
      cases lit with
      | nil => simp at hj2
      | cons c cs =>
        rw [List.getD_cons_zero, List.getD_cons_zero] at hne
        simp [chLeads, hne]
  | succ j' ih =>
    cases pat with
    | nil => simp at hj1
    | cons p ps =>
      cases lit with
      | nil => simp at hj2
      | cons c cs =>
        rw [List.getD_cons_succ, List.getD_cons_succ] at hne
        by_cases hpc : chEq p c = true
        · rw [List.cons_append, chLeads, hpc, Bool.true_and]
          exact ih (Nat.succ_lt_succ_iff.mp hj1) (Nat.succ_lt_succ_iff.mp hj2) hne
        · rw [List.cons_append, chLeads,
            (Bool.not_eq_true _).mp hpc, Bool.false_and]

/-- Boolean scan: at every offset into `lit`, the pattern disagrees
case-insensitively with the remaining literal at some common index. -/
def mismatchScan (pat lit : List Char) : Bool :=
  (List.range lit.length).all fun k =>
    (List.range (min pat.length (lit.length - k))).any fun j =>
      ! chEq (pat.getD j ' ') ((List.drop k lit).getD j ' ')

/-- A successful mismatch scan means the pattern matches at no offset into
`lit`, whatever follows. -/
theorem chLeads_mismatch_scan (pat lit : List Char)
    (hscan : mismatchScan pat lit = true) (b : List Char) :
    ∀ k, k < lit.length → chLeads pat (List.drop k lit ++ b) = false := by
  intro k hk
  rw [mismatchScan, List.all_eq_true] at hscan
  have h1 := hscan k (List.mem_range.mpr hk)
  rw [List.any_eq_true] at h1
  obtain ⟨j, hjmem, hj⟩ := h1
  have hjlt := List.mem_range.mp hjmem
  rw [Bool.not_eq_true'] at hj
  refine chLeads_mismatch_at b j ?_ ?_ hj
  · exact Nat.lt_of_lt_of_le hjlt (Nat.min_le_left _ _)
  · rw [List.length_drop]
    exact Nat.lt_of_lt_of_le hjlt (Nat.min_le_right _ _)

/-- Packaged no-span scan: a pattern starting with a character that occurs
nowhere else in it (case-insensitively, relative to `hd`) and not occurring
inside `inner` matches at no offset into `inner` followed by `hd :: t`. -/
theorem chLeads_nospan_all (pat inner : List Char) (hd : Char) (t : List Char)
    (hocc : chOccurs pat inner = false)
    (hpat : ∀ j, (hj : j < pat.length) → 1 ≤ j → chEq (pat.get ⟨j, hj⟩) hd = false) :
    ∀ k, k < inner.length → chLeads pat (List.drop k inner ++ (hd :: t)) = false := by
  intro k hk
  refine chLeads_no_span t ?_ (chOccurs_drop hocc k) hpat
  refine List.ne_nil_of_length_pos ?_
  rw [List.length_drop]
  omega

/-- C5 (counterexample).  The regex in `extract_between_tags` matches tags
case-insensitively, so a `code` string containing a lowercase `</code>` —
which contains none of the four exact-case tag substrings the claim
excludes — terminates the lazy group early: the round trip returns the
empty string instead of the trimmed original. -/
theorem c5_roundtrip_fails_on_lowercase_tag :
    containsSub "</code>" "<CODE>" = false ∧ containsSub "</code>" "</CODE>" = false ∧
    containsSub "</code>" "<EXPLANATION>" = false ∧ containsSub "</code>" "</EXPLANATION>" = false ∧
    containsSub "ok" "<CODE>" = false ∧ containsSub "ok" "</CODE>" = false ∧
    containsSub "ok" "<EXPLANATION>" = false ∧ containsSub "ok" "</EXPLANATION>" = false ∧
    extract_between_tags
      ("<CODE>" ++ "</code>" ++ "</CODE>" ++ "<EXPLANATION>" ++ "ok" ++ "</EXPLANATION>") "CODE"
      = some "" ∧
    pyStrip "</code>" = "</code>" ∧
    extract_between_tags
      ("<CODE>" ++ "</code>" ++ "</CODE>" ++ "<EXPLANATION>" ++ "ok" ++ "</EXPLANATION>") "CODE"
      ≠ some (pyStrip "</code>") := by
  decide

/-- C5 (amended).  Round trip under case-insensitive tag freedom: for any
`code` and `explanation` in which none of the four tag strings occurs even
case-insensitively (the parser matches tags with `re.IGNORECASE`), parsing
the wrapped text returns the stripped originals. -/
theorem c5_roundtrip_ci_tag_free (code expl : String)
    (_h1 : ciContains code "<CODE>" = false) (h2 : ciContains code "</CODE>" = false)
    (h3 : ciContains code "<EXPLANATION>" = false) (_h4 : ciContains code "</EXPLANATION>" = false)
    (_h5 : ciContains expl "<CODE>" = false) (_h6 : ciContains expl "</CODE>" = false)
    (_h7 : ciContains expl "<EXPLANATION>" = false) (h8 : ciContains expl "</EXPLANATION>" = false) :
    extract_between_tags ("<CODE>" ++ code ++ "</CODE>" ++ "<EXPLANATION>" ++ expl ++ "</EXPLANATION>") "CODE"
      = some (pyStrip code) ∧
    extract_between_tags ("<CODE>" ++ code ++ "</CODE>" ++ "<EXPLANATION>" ++ expl ++ "</EXPLANATION>") "EXPLANATION"
      = some (pyStrip expl) := by
  have htagC : (("<" ++ "CODE" ++ ">" : String)).data = "<CODE>".data := rfl
  have htagC2 : (("</" ++ "CODE" ++ ">" : String)).data = "</CODE>".data := rfl
  have htagE : (("<" ++ "EXPLANATION" ++ ">" : String)).data = "<EXPLANATION>".data := rfl
  have htagE2 : (("</" ++ "EXPLANATION" ++ ">" : String)).data = "</EXPLANATION>".data := rfl
  constructor
  · have hdC : ("<CODE>" ++ code ++ "</CODE>" ++ "<EXPLANATION>" ++ expl ++ "</EXPLANATION>").data
        = "<CODE>".data ++ (code.data ++ ("</CODE>".data ++ ("<EXPLANATION>".data ++ (expl.data ++ "</EXPLANATION>".data)))) := by
      simp only [String.data_append, List.append_assoc]
    have hinnC : ∀ k, k < code.data.length →
        chLeads "</CODE>".data (List.drop k code.data ++ ("</CODE>".data ++ ("<EXPLANATION>".data ++ (expl.data ++ "</EXPLANATION>".data)))) = false := by
      intro k hk
      rw [show ("</CODE>".data ++ ("<EXPLANATION>".data ++ (expl.data ++ "</EXPLANATION>".data)) : List Char)
          = '<' :: ("/CODE>".data ++ ("<EXPLANATION>".data ++ (expl.data ++ "</EXPLANATION>".data))) from rfl]
      exact chLeads_nospan_all _ _ '<' _ h2 (by decide) k hk
    rw [extract_between_tags, htagC, htagC2, hdC,
      searchTags_exact code.data ("<EXPLANATION>".data ++ (expl.data ++ "</EXPLANATION>".data)) (by decide) (by decide) hinnC]
  · have hdE : ("<CODE>" ++ code ++ "</CODE>" ++ "<EXPLANATION>" ++ expl ++ "</EXPLANATION>").data
        = "<CODE>".data ++ (code.data ++ ("</CODE>".data ++ ("<EXPLANATION>".data ++ (expl.data ++ ("</EXPLANATION>".data ++ []))))) := by
      simp only [String.data_append, List.append_assoc, List.append_nil]
    have hskip1 := chLeads_mismatch_scan "<EXPLANATION>".data "<CODE>".data (by decide)
      (code.data ++ ("</CODE>".data ++ ("<EXPLANATION>".data ++ (expl.data ++ ("</EXPLANATION>".data ++ [])))))
    have hskip2 : ∀ k, k < code.data.length →
        chLeads "<EXPLANATION>".data (List.drop k code.data ++ ("</CODE>".data ++ ("<EXPLANATION>".data ++ (expl.data ++ ("</EXPLANATION>".data ++ []))))) = false := by
      intro k hk
      rw [show ("</CODE>".data ++ ("<EXPLANATION>".data ++ (expl.data ++ ("</EXPLANATION>".data ++ []))) : List Char)
          = '<' :: ("/CODE>".data ++ ("<EXPLANATION>".data ++ (expl.data ++ ("</EXPLANATION>".data ++ [])))) from rfl]
      exact chLeads_nospan_all _ _ '<' _ h3 (by decide) k hk
    have hskip3 := chLeads_mismatch_scan "<EXPLANATION>".data "</CODE>".data (by decide)
      ("<EXPLANATION>".data ++ (expl.data ++ ("</EXPLANATION>".data ++ [])))
    have hinnE : ∀ k, k < expl.data.length →
        chLeads "</EXPLANATION>".data (List.drop k expl.data ++ ("</EXPLANATION>".data ++ [])) = false := by
      intro k hk
      rw [show ("</EXPLANATION>".data ++ ([] : List Char))
          = '<' :: ("/EXPLANATION>".data ++ []) from rfl]
      exact chLeads_nospan_all _ _ '<' _ h8 (by decide) k hk
    rw [extract_between_tags, htagE, htagE2, hdE,
      searchTags_skip "</EXPLANATION>".data "<CODE>".data _ hskip1,
      searchTags_skip "</EXPLANATION>".data code.data _ hskip2,
      searchTags_skip "</EXPLANATION>".data "</CODE>".data _ hskip3,
      searchTags_exact expl.data [] (by decide) (by decide) hinnE]

/-- C5 (witness): the amended round trip applied at a concrete pair. -/
theorem c5_roundtrip_ci_tag_free_witness :
    ciContains "x = 1" "<CODE>" = false ∧ ciContains "a demo" "</EXPLANATION>" = false ∧
    extract_between_tags
      ("<CODE>" ++ "x = 1" ++ "</CODE>" ++ "<EXPLANATION>" ++ "a demo" ++ "</EXPLANATION>") "CODE"
      = some (pyStrip "x = 1") :=
  ⟨by decide, by decide,
   (c5_roundtrip_ci_tag_free "x = 1" "a demo" (by decide) (by decide) (by decide) (by decide)
     (by decide) (by decide) (by decide) (by decide)).1⟩

/-- A whitespace character never case-insensitively matches `<`. -/
theorem ws_not_lt {c : Char} (h : pyWs c = true) : chEq '<' c = false := by
  rw [pyWs] at h
  simp only [Bool.or_eq_true, beq_iff_eq] at h
  rcases h with ((((h | h) | h) | h) | h) | h <;> subst h <;> decide

/-- A pattern opening with `<` never occurs in an all-whitespace list. -/
theorem chOccurs_head_lt_ws {pt l : List Char} (hl : l.all pyWs = true) :
    chOccurs ('<' :: pt) l = false := by
  induction l with
  | nil => rfl
  | cons c cs ih =>
    rw [List.all_cons, Bool.and_eq_true] at hl
    rw [chOccurs, Bool.or_eq_false_iff]
    refine ⟨?_, ih hl.2⟩
    rw [chLeads, ws_not_lt hl.1, Bool.false_and]

/-- Stripping an all-whitespace list yields the empty list. -/
theorem pyStripList_all_ws {l : List Char} (h : l.all pyWs = true) :
    pyStripList l = [] := by
  rw [pyStripList, dropWhile_all_nil (List.all_eq_true.mp h)]
  rfl

/-- C10.  A well-formed `<CODE>...</CODE>` block whose inner content is
empty or whitespace-only extracts to the empty string (`Some ""`, not
`None`), and `improve_code` then takes the same `if not modified_code`
branch as for a reply with no code block at all, returning the 500
protocol-error response. -/
theorem c10_empty_code_block_protocol_error (inner rest : String)
    (hws : inner.data.all pyWs = true) :
    extract_between_tags ("<CODE>" ++ inner ++ "</CODE>" ++ rest) "CODE" = some "" ∧
    improve_code (some "gsk_abc")
        [("code", .vstr ""), ("prompt", .vstr "make pong"), ("selected_code", .vstr "")]
        (.reply (some ("<CODE>" ++ "   " ++ "</CODE>" ++ "<EXPLANATION>" ++ "done" ++ "</EXPLANATION>")))
      = .ok (500, .jerror protocolErrMsg) ∧
    improve_code (some "gsk_abc")
        [("code", .vstr ""), ("prompt", .vstr "make pong"), ("selected_code", .vstr "")]
        (.reply (some ("<EXPLANATION>" ++ "done" ++ "</EXPLANATION>")))
      = .ok (500, .jerror protocolErrMsg) ∧
    improve_code (some "gsk_abc")
        [("code", .vstr ""), ("prompt", .vstr "make pong"), ("selected_code", .vstr "")]
        (.reply (some ("<CODE>" ++ "   " ++ "</CODE>" ++ "<EXPLANATION>" ++ "done" ++ "</EXPLANATION>")))
      = improve_code (some "gsk_abc")
          [("code", .vstr ""), ("prompt", .vstr "make pong"), ("selected_code", .vstr "")]
          (.reply (some ("<EXPLANATION>" ++ "done" ++ "</EXPLANATION>"))) := by
  refine ⟨?_, by decide, by decide, by decide⟩
  have htagC : (("<" ++ "CODE" ++ ">" : String)).data = "<CODE>".data := rfl
  have htagC2 : (("</" ++ "CODE" ++ ">" : String)).data = "</CODE>".data := rfl
  have hd : ("<CODE>" ++ inner ++ "</CODE>" ++ rest).data
      = "<CODE>".data ++ (inner.data ++ ("</CODE>".data ++ rest.data)) := by
    simp only [String.data_append, List.append_assoc]
  have hocc : chOccurs "</CODE>".data inner.data = false := chOccurs_head_lt_ws hws
  have hinner : ∀ k, k < inner.data.length →
      chLeads "</CODE>".data (List.drop k inner.data ++ ("</CODE>".data ++ rest.data)) = false := by
    intro k hk
    rw [show ("</CODE>".data ++ rest.data : List Char)
        = '<' :: ("/CODE>".data ++ rest.data) from rfl]
    exact chLeads_nospan_all _ _ '<' _ hocc (by decide) k hk
  rw [extract_between_tags, htagC, htagC2, hd,
    searchTags_exact inner.data rest.data (by decide) (by decide) hinner]
  show some (pyStrip ⟨inner.data⟩) = some ""
  rw [pyStrip, pyStripList_all_ws hws]

/-- C10 (witness): the theorem applied at a concrete whitespace-only
block. -/
theorem c10_empty_code_block_protocol_error_witness :
    (" \t\n".data.all pyWs = true) ∧
    extract_between_tags ("<CODE>" ++ " \t\n" ++ "</CODE>" ++ "tail") "CODE" = some "" :=
  ⟨by decide, (c10_empty_code_block_protocol_error " \t\n" "tail" (by decide)).1⟩
